import Mathlib

/-!
Verification development for the file consumer in
`consumers/consumer_nickelias.py`.

The Python module is embedded shallowly:

* JSON scalar values become the inductive `Value`; Python's `float(...)`
  coercion becomes `Value.toFloat?` (IEEE doubles are modelled by exact
  rationals `ℚ`; `float` on a plain decimal string literal is modelled by
  `parseNumeric`, exponent/`inf`/`nan` forms are not needed by any input
  considered here and are mapped to failure together with every other
  non-decimal string, matching the fact that such strings never appear in
  the inputs of the statements below).
* A decoded JSON object (a Python `dict`) becomes an association list
  `RawRecord`; `dict.get(k)` / `dict.get(k, d)` become `pyGet` / `pyGetD`
  (Python's `None` is `Value.null`).
* `process_message` returns `Option NormalizedRecord`: `none` is the
  `except` branch returning Python `None` (the only statement of the
  `try` block that can raise is the `float(...)` coercion).
* The CSV file becomes `CsvFile := Option (List (List Value))`, `none`
  meaning the file does not exist; `append_to_csv` is the sink.
* The SQLite database becomes `Store`: each table is an `Option` of a
  list of rows, `none` meaning the table does not exist.  `init_db` and
  `insert_message` mirror the SQL statements.  `insert_message_tx` runs
  the body of `insert_message` as an explicit transaction with a failure
  oracle `failAt` (the index of the first SQL step that raises, if any):
  the `with sqlite3.connect(...)` block commits the working state on
  success and rolls back to the entry state on any exception, and the
  surrounding `try/except` swallows the exception, so the function is
  total on `Store`.
* One pass of the `while True:` polling loop of
  `consume_messages_from_file` becomes `consume_pass`.  `json.loads` is
  an oracle parameter `decode : List Char → Option RawRecord` (`none`
  meaning the call raises), file contents are `List Char`, `file.seek` /
  `file.tell` are the byte offset arithmetic, and `time.sleep` is
  recorded in the `slept` field of the result.  Note that in the source
  the only `try/except` containing `json.loads` wraps the whole pass, so
  a decode failure aborts the pass (the offset update on line 271 and
  the lines after the failing one are skipped) and falls into the
  `except Exception` handler, which sleeps.
-/

/-- Whitespace characters stripped by Python's `str.strip()` (the ASCII
ones; the unicode ones never occur in the inputs considered here). -/
def isPySpace (c : Char) : Bool :=
  c = ' ' || c = '\t' || c = '\n' || c = '\r' || c = '\x0b' || c = '\x0c'

/-- Python `str.strip()` on a list of characters. -/
def pyStrip (l : List Char) : List Char :=
  ((l.dropWhile isPySpace).reverse.dropWhile isPySpace).reverse

/-- Split a character list on a separator character (pieces do not
contain the separator; `n` separators yield `n + 1` pieces). -/
def splitOnChar (sep : Char) : List Char → List (List Char)
  | [] => [[]]
  | c :: cs =>
    match splitOnChar sep cs with
    | [] => if c = sep then [[], []] else [[c]]
    | l :: ls => if c = sep then [] :: l :: ls else (c :: l) :: ls

/-- Numeric value of a decimal digit character. -/
def digitVal (c : Char) : ℕ := c.toNat - '0'.toNat

/-- All characters are decimal digits. -/
def allDigits (l : List Char) : Bool := l.all Char.isDigit

/-- Value of a list of decimal digit characters, most significant first. -/
def natOfDigits (l : List Char) : ℕ := l.foldl (fun a c => 10 * a + digitVal c) 0

/-- Unsigned part of Python `float` on a string: `digits`, `digits.digits`,
`digits.` or `.digits` (at least one digit overall). -/
def parseUnsigned (t : List Char) : Option ℚ :=
  match splitOnChar '.' t with
  | [a] => if allDigits a = true ∧ a ≠ [] then some (natOfDigits a : ℚ) else none
  | [a, b] =>
    if allDigits a = true ∧ allDigits b = true ∧ (a ≠ [] ∨ b ≠ []) then
      some ((natOfDigits a : ℚ) + (natOfDigits b : ℚ) / ((10 : ℚ) ^ b.length))
    else none
  | _ => none

/-- Python `float` applied to a string: optional surrounding whitespace,
optional sign, decimal literal; every other string raises (`none`). -/
def parseNumeric (s : List Char) : Option ℚ :=
  match pyStrip s with
  | '-' :: r => (parseUnsigned r).map (fun q => -q)
  | '+' :: r => parseUnsigned r
  | t => parseUnsigned t

/-- A JSON scalar value as decoded by `json.loads` (Python `None`,
`bool`, number, `str`).  Numbers are modelled by exact rationals. -/
inductive Value where
  | null : Value
  | bool (b : Bool) : Value
  | num (q : ℚ) : Value
  | str (s : String) : Value
deriving DecidableEq

/-- Python `float(v)`: numbers coerce to themselves, booleans to 0/1,
decimal strings parse, and `None` or a non-numeric string raises
(`none`). -/
def Value.toFloat? : Value → Option ℚ
  | .null => none
  | .bool b => some (if b then 1 else 0)
  | .num q => some q
  | .str s => parseNumeric s.toList

/-- A decoded JSON object: the Python `dict` passed to `process_message`,
as an association list (keys unique in practice; lookup takes the first
binding, as a `dict` would). -/
abbrev RawRecord := List (String × Value)

/-- First binding of a key, if the key is present. -/
def rawGet? (m : RawRecord) (k : String) : Option Value :=
  (m.find? (fun p => p.1 == k)).map (fun p => p.2)

/-- Python `dict.get(k)`: the bound value, or `None` when absent. -/
def pyGet (m : RawRecord) (k : String) : Value :=
  (rawGet? m k).getD Value.null

/-- Python `dict.get(k, d)`: the bound value, or `d` when absent. -/
def pyGetD (m : RawRecord) (k : String) (d : Value) : Value :=
  (rawGet? m k).getD d

/-- The processed message built by `process_message` (source lines
68–75): the five string-like fields are kept as the raw values returned
by `dict.get` (so `Value.null` when absent), `sentiment` is the result
of the `float` coercion. -/
structure NormalizedRecord where
  message : Value
  author : Value
  timestamp : Value
  category : Value
  sentiment : ℚ
  keyword_mentioned : Value
deriving DecidableEq

/-- `process_message` (source lines 56–80).  The dictionary literal is
built field by field inside `try`; the only expression that can raise is
`float(message.get("sentiment", 0.0))`, so the function returns the
processed record unless that coercion fails, in which case the `except`
branch returns `None` (`none` here). -/
def process_message (m : RawRecord) : Option NormalizedRecord :=
  match Value.toFloat? (pyGetD m "sentiment" (Value.num 0)) with
  | none => none
  | some q =>
    some
      { message := pyGet m "message"
        author := pyGet m "author"
        timestamp := pyGet m "timestamp"
        category := pyGet m "category"
        sentiment := q
        keyword_mentioned := pyGet m "keyword_mentioned" }

/-- The header row written by `append_to_csv` when the file does not yet
exist (source line 103). -/
def csvHeader : List Value :=
  [Value.str "message", Value.str "author", Value.str "timestamp",
   Value.str "category", Value.str "sentiment", Value.str "keyword_mentioned"]

/-- The data row written by `append_to_csv` for one processed message
(source lines 104–111): the six fields, in the fixed order. -/
def csvRow (m : NormalizedRecord) : List Value :=
  [m.message, m.author, m.timestamp, m.category, Value.num m.sentiment,
   m.keyword_mentioned]

/-- The CSV file state: `none` when the file does not exist, otherwise
its list of rows. -/
abbrev CsvFile := Option (List (List Value))

/-- `append_to_csv` (source lines 87–113) on the successful path: checks
existence, opens in append mode (creating the file when absent), writes
the header only when the file did not previously exist, then writes the
data row. -/
def append_to_csv (m : NormalizedRecord) (f : CsvFile) : CsvFile :=
  match f with
  | none => some [csvHeader, csvRow m]
  | some rows => some (rows ++ [csvRow m])

/-- One row of the `sentiment_insights` table.  `average_sentiment` is
`Option ℚ` because the column is SQL `REAL` and `AVG` over an empty
table is `NULL`; `last_updated` is a timestamp, modelled as a natural
number whose order agrees with the order of the stored text
timestamps. -/
structure AggRow where
  id : ℕ
  average_sentiment : Option ℚ
  total_messages : ℕ
  last_updated : ℕ
deriving DecidableEq

/-- The SQLite database: each table is `none` when absent.  Rows of
`streamed_messages` are kept in insertion order (the autoincrement `id`
is the position and is not materialised). -/
structure Store where
  streamed_messages : Option (List NormalizedRecord)
  sentiment_insights : Option (List AggRow)
deriving DecidableEq

/-- The row inserted by `init_db` when `sentiment_insights` is empty
(source lines 166–170): `(0.0, 0, datetime('now'))`. -/
def seedRow (now : ℕ) : AggRow :=
  { id := 1, average_sentiment := some 0, total_messages := 0, last_updated := now }

/-- `init_db` (source lines 120–174) on the successful path:
`DROP TABLE IF EXISTS streamed_messages` followed by `CREATE TABLE`
leaves the message table existing and empty; `CREATE TABLE IF NOT
EXISTS sentiment_insights` keeps an existing insights table; the
`SELECT COUNT(*)` check seeds exactly one `(0.0, 0, now)` row when the
insights table is empty. -/
def init_db (now : ℕ) (s : Store) : Store :=
  let ins := s.sentiment_insights.getD []
  { streamed_messages := some []
    sentiment_insights := some (if ins = [] then [seedRow now] else ins) }

/-- The row selected by `ORDER BY last_updated DESC LIMIT 1` (source
line 219): a row of maximal `last_updated` (SQLite leaves ties
unspecified; this model keeps the earliest such row — every state
reached below has a single row, so the choice is immaterial). -/
def mostRecent? : List AggRow → Option AggRow
  | [] => none
  | r :: rs =>
    match mostRecent? rs with
    | none => some r
    | some b => some (if b.last_updated > r.last_updated then b else r)

/-- `AVG(sentiment)` over the message table: `NULL` on an empty table,
otherwise the mean (all stored sentiments are non-`NULL` by
construction). -/
def avgSentiment (msgs : List NormalizedRecord) : Option ℚ :=
  if msgs = [] then none
  else some ((msgs.map NormalizedRecord.sentiment).sum / (msgs.length : ℚ))

/-- First SQL step of `insert_message` (source lines 195–209): `INSERT
INTO streamed_messages ...`.  Raises (`none`) when the table is
absent. -/
def step_insert (m : NormalizedRecord) (w : Store) : Option Store :=
  match w.streamed_messages with
  | some msgs => some { w with streamed_messages := some (msgs ++ [m]) }
  | none => none

/-- Second SQL step of `insert_message` (source lines 212–222): `SELECT
COUNT(*), AVG(sentiment) FROM streamed_messages` followed by the
`UPDATE sentiment_insights ... WHERE id = (SELECT id ... ORDER BY
last_updated DESC LIMIT 1)`.  When the subquery yields `NULL` (empty
insights table) the `UPDATE` matches no row.  Raises (`none`) when
either table is absent. -/
def step_update (now : ℕ) (w : Store) : Option Store :=
  match w.streamed_messages, w.sentiment_insights with
  | some msgs, some ins =>
    let total := msgs.length
    let avg := avgSentiment msgs
    let sel := (mostRecent? ins).map AggRow.id
    some { w with
            sentiment_insights := some (ins.map (fun r =>
              if some r.id = sel then
                { r with average_sentiment := avg, total_messages := total,
                         last_updated := now }
              else r)) }
  | _, _ => none

/-- The SQL steps of the `insert_message` transaction, in program
order. -/
def insertSteps (m : NormalizedRecord) (now : ℕ) : List (Store → Option Store) :=
  [step_insert m, step_update now]

/-- Run the steps of a transaction on a working state.  `failAt = some i`
means the backend raises at step index `i` (before that step takes
effect); a step may also raise deterministically (`none`).  The result
is the working state to commit, or `none` when the transaction
raised. -/
def txAttempt (failAt : Option ℕ) : ℕ → List (Store → Option Store) → Store → Option Store
  | _, [], w => some w
  | i, f :: fs, w =>
    if failAt = some i then none
    else
      match f w with
      | none => none
      | some w2 => txAttempt failAt (i + 1) fs w2

/-- `insert_message` (source lines 181–226) with an explicit failure
oracle: the `with sqlite3.connect(...)` block commits the working state
when every statement succeeded and rolls back to the entry state on an
exception, and the outer `try/except` catches the exception and only
logs it, so the function is total and never propagates an error to the
caller. -/
def insert_message_tx (failAt : Option ℕ) (m : NormalizedRecord) (now : ℕ)
    (s : Store) : Store :=
  match txAttempt failAt 0 (insertSteps m now) s with
  | some w => w
  | none => s

/-- `insert_message` on the failure-free path (the oracle raises
nowhere). -/
def insert_message (m : NormalizedRecord) (now : ℕ) (s : Store) : Store :=
  insert_message_tx none m now s

/-- Mutable state of one pass of the tail loop: the database, the CSV
file, and the `new_data_found` flag (source line 257). -/
structure PassState where
  store : Store
  csv : CsvFile
  sawData : Bool
deriving DecidableEq

/-- The `for line in file:` body of `consume_messages_from_file`
(source lines 259–268), threaded over the lines read from the current
offset.  `decode` is the `json.loads` oracle (`none` = the call
raises).  The boolean of the result is `true` when the pass aborted:
a raising `json.loads` propagates out of the loop to the pass-level
`except Exception` handler, so the remaining lines are not visited.
Empty (after `strip`) lines are skipped; a processed message of `None`
(falsy) skips both sinks. -/
def processLines (decode : List Char → Option RawRecord) (now : ℕ) :
    List (List Char) → PassState → PassState × Bool
  | [], st => (st, false)
  | l :: rest, st =>
    if pyStrip l = [] then processLines decode now rest st
    else
      let st1 : PassState := { st with sawData := true }
      match decode (pyStrip l) with
      | none => (st1, true)
      | some raw =>
        match process_message raw with
        | none => processLines decode now rest st1
        | some pm =>
          processLines decode now rest
            { st1 with store := insert_message pm now st1.store,
                       csv := append_to_csv pm st1.csv }

/-- Result of one pass of the `while True:` loop: the new `last_position`,
the two sink states, the `new_data_found` flag, and whether the pass
ended in `time.sleep(interval_secs)`. -/
structure PassResult where
  offset : ℕ
  store : Store
  csv : CsvFile
  sawData : Bool
  slept : Bool
deriving DecidableEq

/-- One pass of the tail loop of `consume_messages_from_file` (source
lines 253–282).  `content?` is the live data file (`none` = the file
does not exist, so `open` raises `FileNotFoundError`: log and sleep).
Otherwise the pass seeks to `offset`, iterates the remaining lines, and
then either aborts (a line's `json.loads` raised: the offset update is
skipped, the `except Exception` handler logs and sleeps) or completes:
`last_position = file.tell()` (the end of the file, or the original
offset when it already lay beyond the end), and the pass sleeps exactly
when `new_data_found` is still false. -/
def consume_pass (decode : List Char → Option RawRecord)
    (content? : Option (List Char)) (offset : ℕ) (store : Store)
    (csv : CsvFile) (now : ℕ) : PassResult :=
  match content? with
  | none => { offset := offset, store := store, csv := csv, sawData := false, slept := true }
  | some content =>
    let lines := splitOnChar '\n' (content.drop offset)
    match processLines decode now lines { store := store, csv := csv, sawData := false } with
    | (st, true) =>
      { offset := offset, store := st.store, csv := st.csv, sawData := st.sawData, slept := true }
    | (st, false) =>
      { offset := max offset content.length, store := st.store, csv := st.csv,
        sawData := st.sawData, slept := !st.sawData }

/-- The initial `last_position` passed by `main` (source line 318). -/
def main_start_offset : ℕ := 0

/-- A line is "data" when it is non-empty after `strip` (source line
260). -/
def lineIsData (l : List Char) : Bool := !(pyStrip l).isEmpty

/-- A line makes the pass abort when it is non-empty after `strip` and
`json.loads` raises on it. -/
def lineBad (decode : List Char → Option RawRecord) (l : List Char) : Bool :=
  lineIsData l && (decode (pyStrip l)).isNone

/-- A fresh store: the database file does not exist yet, so neither
table does. -/
def freshStore : Store := { streamed_messages := none, sentiment_insights := none }

/-- A record as decoded from the line `\x7b"sentiment": 1\x7d`. -/
def exRawGood : RawRecord := [("sentiment", Value.num 1)]

/-- The characters of the valid JSON line `\x7b"sentiment": 1\x7d`. -/
def exLineGood : List Char := "\x7b\"sentiment\": 1\x7d".toList

/-- A `json.loads` oracle: succeeds exactly on `exLineGood` (the string
`notjson` and every other line raise, as `json.loads` would). -/
def exDecodeC1 : List Char → Option RawRecord :=
  fun l => if l = exLineGood then some exRawGood else none

/-- File contents: a malformed line followed by a valid line. -/
def exContentC1 : List Char := ("notjson\n" ++ "\x7b\"sentiment\": 1\x7d\n").toList

/-- A `json.loads` oracle for a file whose only line (`x`) is malformed. -/
def exDecodeNone : List Char → Option RawRecord := fun _ => none

/-- File contents: the single malformed non-empty line `x`. -/
def exContentC6 : List Char := "x\n".toList

/-- A record with a non-numeric sentiment, as decoded from
`\x7b"sentiment": "abc"\x7d`. -/
def exRawC4 : RawRecord := [("sentiment", Value.str "abc")]

/-- The characters of the valid JSON line `\x7b"sentiment": "abc"\x7d`. -/
def exLineC4 : List Char := "\x7b\"sentiment\": \"abc\"\x7d".toList

/-- A `json.loads` oracle that decodes `exLineC4` to `exRawC4`. -/
def exDecodeC4 : List Char → Option RawRecord :=
  fun l => if l = exLineC4 then some exRawC4 else none

/-- A record whose sentiment key is present but bound to `null`, as
decoded from `\x7b"sentiment": null\x7d`. -/
def exRawC10 : RawRecord := [("sentiment", Value.null)]

/-- The characters of the valid JSON line `\x7b"sentiment": null\x7d`. -/
def exLineC10 : List Char := "\x7b\"sentiment\": null\x7d".toList

/-- A `json.loads` oracle that decodes `exLineC10` to `exRawC10`. -/
def exDecodeC10 : List Char → Option RawRecord :=
  fun l => if l = exLineC10 then some exRawC10 else none

/-- A record whose sentiment is the non-numeric string `bad`. -/
def exRawC3 : RawRecord := [("sentiment", Value.str "bad")]

/-- A normalized record with sentiment 1 (other fields absent). -/
def exRecA : NormalizedRecord :=
  { message := Value.null, author := Value.null, timestamp := Value.null,
    category := Value.null, sentiment := 1, keyword_mentioned := Value.null }

/-- A normalized record with sentiment 2 (other fields absent). -/
def exRecB : NormalizedRecord :=
  { message := Value.null, author := Value.null, timestamp := Value.null,
    category := Value.null, sentiment := 2, keyword_mentioned := Value.null }

theorem processLines_aborts (decode : List Char → Option RawRecord) (now : ℕ)
    (lines : List (List Char)) :
    ∀ st : PassState,
      (processLines decode now lines st).2 = lines.any (lineBad decode) := by
  induction lines with
  | nil => intro st; rfl
  | cons l rest ih =>
    intro st
    by_cases hl : pyStrip l = []
    · have hb : lineBad decode l = false := by
        simp [lineBad, lineIsData, hl]
      simp [processLines, hl, hb, ih st]
    · cases hd : decode (pyStrip l) with
      | none =>
        have hb : lineBad decode l = true := by
          simp [lineBad, lineIsData, hl, hd]
        simp [processLines, hl, hd, hb]
      | some raw =>
        have hb : lineBad decode l = false := by
          simp [lineBad, hd]
        cases hpm : process_message raw with
        | none => simp [processLines, hl, hd, hpm, hb, ih]
        | some pm => simp [processLines, hl, hd, hpm, hb, ih]

theorem processLines_sawData (decode : List Char → Option RawRecord) (now : ℕ)
    (lines : List (List Char)) :
    ∀ st : PassState,
      (processLines decode now lines st).1.sawData
        = (st.sawData || lines.any lineIsData) := by
  induction lines with
  | nil => intro st; simp [processLines]
  | cons l rest ih =>
    intro st
    by_cases hl : pyStrip l = []
    · have hld : lineIsData l = false := by simp [lineIsData, hl]
      simp [processLines, hl, hld, ih st]
    · have hld : lineIsData l = true := by simp [lineIsData, hl]
      cases hd : decode (pyStrip l) with
      | none => simp [processLines, hl, hd, hld]
      | some raw =>
        cases hpm : process_message raw with
        | none => simp [processLines, hl, hd, hpm, hld, ih]
        | some pm => simp [processLines, hl, hd, hpm, hld, ih]

theorem insert_message_single (m : NormalizedRecord) (now i : ℕ) (a : Option ℚ)
    (c t : ℕ) (msgs : List NormalizedRecord) :
    insert_message m now
        { streamed_messages := some msgs, sentiment_insights := some [⟨i, a, c, t⟩] }
      = { streamed_messages := some (msgs ++ [m]),
          sentiment_insights :=
            some [⟨i, avgSentiment (msgs ++ [m]), (msgs ++ [m]).length, now⟩] } := by
  simp [insert_message, insert_message_tx, insertSteps, txAttempt, step_insert,
    step_update, mostRecent?]

theorem foldl_insert_agg (ps : List (NormalizedRecord × ℕ)) :
    ∀ (msgs : List NormalizedRecord) (i : ℕ) (a : Option ℚ) (c t : ℕ), ps ≠ [] →
      ∃ u, ps.foldl (fun s p => insert_message p.1 p.2 s)
            { streamed_messages := some msgs, sentiment_insights := some [⟨i, a, c, t⟩] }
        = { streamed_messages := some (msgs ++ ps.map Prod.fst),
            sentiment_insights :=
              some [⟨i, avgSentiment (msgs ++ ps.map Prod.fst),
                     (msgs ++ ps.map Prod.fst).length, u⟩] } := by
  induction ps with
  | nil => intro _ _ _ _ _ h; exact absurd rfl h
  | cons p ps ih =>
    intro msgs i a c t _
    rw [List.foldl_cons, insert_message_single]
    by_cases hps : ps = []
    · subst hps
      exact ⟨p.2, by simp⟩
    · obtain ⟨u, hu⟩ :=
        ih (msgs ++ [p.1]) i (avgSentiment (msgs ++ [p.1])) (msgs ++ [p.1]).length p.2 hps
      exact ⟨u, by simpa [List.append_assoc] using hu⟩

theorem csv_append_fold (rs : List NormalizedRecord) :
    ∀ rows : List (List Value),
      rs.foldl (fun f x => append_to_csv x f) (some rows)
        = some (rows ++ rs.map csvRow) := by
  induction rs with
  | nil => intro rows; simp
  | cons r rs ih =>
    intro rows
    rw [List.foldl_cons]
    have h1 : append_to_csv r (some rows) = some (rows ++ [csvRow r]) := rfl
    rw [h1, ih]
    simp

/-- C3 counterexample: the raw record whose sentiment is the string
`bad` has a failing numeric coercion, yet `process_message` does not
produce a record with sentiment 0.0 — it drops the record entirely
(returns `None`), refuting the claim that 0.0 is the default for the
failed-coercion case. -/
theorem sentiment_default_counterexample :
    Value.toFloat? (Value.str "bad") = none ∧
    ¬ ∃ r : NormalizedRecord, process_message exRawC3 = some r := by
  constructor
  · decide
  · rintro ⟨r, hr⟩
    have hnone : process_message exRawC3 = none := by decide
    rw [hnone] at hr
    exact Option.noConfusion hr

/-- C3 (amended): when the sentiment key is missing, normalization
succeeds and the resulting record's sentiment is 0.0; when the key is
present and its numeric coercion fails, the record is dropped (`None`),
so 0.0 is the default only for the missing-key case. -/
theorem sentiment_default_amended (m : RawRecord) :
    (rawGet? m "sentiment" = none →
      ∃ r, process_message m = some r ∧ r.sentiment = 0) ∧
    (∀ v, rawGet? m "sentiment" = some v → Value.toFloat? v = none →
      process_message m = none) := by
  constructor
  · intro h
    refine ⟨{ message := pyGet m "message", author := pyGet m "author",
              timestamp := pyGet m "timestamp", category := pyGet m "category",
              sentiment := 0, keyword_mentioned := pyGet m "keyword_mentioned" },
            ?_, rfl⟩
    simp [process_message, pyGetD, h, Value.toFloat?]
  · intro v hv hf
    simp [process_message, pyGetD, hv, hf]

/-- Witness for the amended C3: the empty raw record (sentiment key
missing) normalizes with sentiment 0.0, and the record with sentiment
`bad` is dropped. -/
theorem sentiment_default_amended_witness :
    (∃ r, process_message ([] : RawRecord) = some r ∧ r.sentiment = 0) ∧
    process_message exRawC3 = none :=
  ⟨(sentiment_default_amended []).1 rfl,
   (sentiment_default_amended exRawC3).2 (Value.str "bad") (by decide) (by decide)⟩

/-- C4: a raw record whose sentiment key is bound to a value whose
`float` coercion raises is dropped by `process_message` (no partial
record), and the tail loop's line step for such a record changes
neither the database nor the CSV file — it only marks the pass as
having seen data and continues with the remaining lines. -/
theorem nonnumeric_sentiment_dropped (m : RawRecord) (v : Value)
    (decode : List Char → Option RawRecord) (l : List Char)
    (rest : List (List Char)) (st : PassState) (now : ℕ)
    (hv : rawGet? m "sentiment" = some v) (hf : Value.toFloat? v = none)
    (hl : pyStrip l ≠ []) (hd : decode (pyStrip l) = some m) :
    process_message m = none ∧
    processLines decode now (l :: rest) st
      = processLines decode now rest { st with sawData := true } := by
  have hpm : process_message m = none := by
    simp [process_message, pyGetD, hv, hf]
  refine ⟨hpm, ?_⟩
  simp [processLines, hl, hd, hpm]

/-- Witness for C4: the record decoded from
`\x7b"sentiment": "abc"\x7d` is dropped and its line leaves both sink
states untouched. -/
theorem nonnumeric_sentiment_dropped_witness :
    process_message exRawC4 = none ∧
    processLines exDecodeC4 7 [exLineC4]
        { store := freshStore, csv := none, sawData := false }
      = processLines exDecodeC4 7 []
          { store := freshStore, csv := none, sawData := true } := by
  have h := nonnumeric_sentiment_dropped exRawC4 (Value.str "abc") exDecodeC4 exLineC4
    [] { store := freshStore, csv := none, sawData := false } 7
    (by decide) (by decide) (by decide) (by decide)
  simpa using h

/-- C10: a sentiment key present but bound to `null` makes the `float`
coercion raise, so the record is dropped and its line step changes
neither sink, whereas a record whose sentiment key is entirely absent
normalizes successfully with sentiment 0.0 — presence-with-null and
absence behave differently. -/
theorem null_vs_absent_sentiment (m m2 : RawRecord)
    (decode : List Char → Option RawRecord) (l : List Char)
    (rest : List (List Char)) (st : PassState) (now : ℕ)
    (h : rawGet? m "sentiment" = some Value.null)
    (h2 : rawGet? m2 "sentiment" = none)
    (hl : pyStrip l ≠ []) (hd : decode (pyStrip l) = some m) :
    process_message m = none ∧
    processLines decode now (l :: rest) st
      = processLines decode now rest { st with sawData := true } ∧
    ∃ r, process_message m2 = some r ∧ r.sentiment = 0 := by
  have hpm : process_message m = none := by
    simp [process_message, pyGetD, h, Value.toFloat?]
  refine ⟨hpm, by simp [processLines, hl, hd, hpm], ?_⟩
  refine ⟨{ message := pyGet m2 "message", author := pyGet m2 "author",
            timestamp := pyGet m2 "timestamp", category := pyGet m2 "category",
            sentiment := 0, keyword_mentioned := pyGet m2 "keyword_mentioned" },
          ?_, rfl⟩
  simp [process_message, pyGetD, h2, Value.toFloat?]

/-- Witness for C10: the record decoded from `\x7b"sentiment": null\x7d`
is dropped with no sink effect, while the empty raw record normalizes
with sentiment 0.0. -/
theorem null_vs_absent_sentiment_witness :
    process_message exRawC10 = none ∧
    processLines exDecodeC10 3 [exLineC10]
        { store := freshStore, csv := none, sawData := false }
      = processLines exDecodeC10 3 []
          { store := freshStore, csv := none, sawData := true } ∧
    ∃ r, process_message ([] : RawRecord) = some r ∧ r.sentiment = 0 := by
  have h := null_vs_absent_sentiment exRawC10 [] exDecodeC10 exLineC10
    [] { store := freshStore, csv := none, sawData := false } 3
    (by decide) (by decide) (by decide) (by decide)
  simpa using h

/-- C7: appending a non-empty sequence of records to an initially
absent CSV file writes the six-column header exactly once, followed by
one data row per record, in call order: the first `append_to_csv` call
creates the file with header plus one row, every later call appends
exactly one row without repeating the header. -/
theorem csv_header_once (r : NormalizedRecord) (rs : List NormalizedRecord) :
    (r :: rs).foldl (fun f x => append_to_csv x f) (none : CsvFile)
      = some (csvHeader :: (r :: rs).map csvRow) := by
  rw [List.foldl_cons]
  have h1 : append_to_csv r (none : CsvFile) = some [csvHeader, csvRow r] := rfl
  rw [h1, csv_append_fold]
  simp

/-- C8: after `init_db` the message table exists and is empty (it is
unconditionally dropped and recreated), and whenever the insights table
was absent or empty beforehand it now contains exactly the single row
`(0.0, 0, now)`. -/
theorem init_db_state (s : Store) (now : ℕ) :
    (init_db now s).streamed_messages = some [] ∧
    (s.sentiment_insights = none ∨ s.sentiment_insights = some [] →
      (init_db now s).sentiment_insights = some [seedRow now]) := by
  refine ⟨rfl, ?_⟩
  rintro (h | h) <;> simp [init_db, h]

/-- Witness for C8: initializing over a store that already has message
rows and an empty insights table empties the message table and seeds
the single aggregate row. -/
theorem init_db_state_witness :
    (init_db 7 { streamed_messages := some [exRecA], sentiment_insights := some [] }).streamed_messages
      = some [] ∧
    (init_db 7 { streamed_messages := some [exRecA], sentiment_insights := some [] }).sentiment_insights
      = some [seedRow 7] :=
  ⟨(init_db_state { streamed_messages := some [exRecA], sentiment_insights := some [] } 7).1,
   (init_db_state { streamed_messages := some [exRecA], sentiment_insights := some [] } 7).2
     (Or.inr rfl)⟩

/-- C9: the `insert_message` transaction is atomic: whatever SQL step
the backend fails at (if any), the resulting store is either exactly
the entry state (the `with` block rolled everything back and the
exception was caught and logged, not propagated — the function is
total) or exactly the state with both the row insert and the aggregate
update applied. -/
theorem insert_tx_atomic (failAt : Option ℕ) (m : NormalizedRecord) (now : ℕ)
    (s : Store) :
    insert_message_tx failAt m now s = s ∨
    insert_message_tx failAt m now s = insert_message m now s := by
  rcases failAt with _ | k
  · exact Or.inr rfl
  · rcases k with _ | _ | k
    · left
      simp [insert_message_tx, insertSteps, txAttempt]
    · left
      cases hfs : step_insert m s with
      | none => simp [insert_message_tx, insertSteps, txAttempt, hfs]
      | some w2 => simp [insert_message_tx, insertSteps, txAttempt, hfs]
    · right
      cases hfs : step_insert m s with
      | none =>
        simp [insert_message, insert_message_tx, insertSteps, txAttempt, hfs]
      | some w2 =>
        cases hgs : step_update now w2 with
        | none =>
          simp [insert_message, insert_message_tx, insertSteps, txAttempt, hfs, hgs]
        | some w3 =>
          simp [insert_message, insert_message_tx, insertSteps, txAttempt, hfs, hgs]

/-- C2: starting from a freshly initialized store, after inserting the
records of `ps` (each with its own clock value), the message table
holds exactly those records and the single aggregate row's
`total_messages` is their number and `average_sentiment` is the exact
mean of their sentiments; quantifying over all `ps` gives the invariant
after every insert. -/
theorem aggregate_row_tracks_table (ps : List (NormalizedRecord × ℕ)) (now0 : ℕ)
    (h : ps ≠ []) :
    ∃ u, ps.foldl (fun s p => insert_message p.1 p.2 s) (init_db now0 freshStore)
      = { streamed_messages := some (ps.map Prod.fst),
          sentiment_insights :=
            some [⟨1, some ((ps.map (fun p => p.1.sentiment)).sum / (ps.length : ℚ)),
                   ps.length, u⟩] } := by
  have hinit : init_db now0 freshStore
      = { streamed_messages := some [],
          sentiment_insights := some [⟨1, some 0, 0, now0⟩] } := by
    simp [init_db, freshStore, seedRow]
  rw [hinit]
  obtain ⟨u, hu⟩ := foldl_insert_agg ps [] 1 (some 0) 0 now0 h
  refine ⟨u, ?_⟩
  rw [hu]
  have hmne : ps.map Prod.fst ≠ [] := by
    simpa using h
  simp [avgSentiment, hmne, List.map_map, Function.comp_def]

/-- Witness for C2: inserting two records with sentiments 1 and 2 into
a fresh store yields the message table with both rows and the aggregate
row `(3/2, 2, _)`. -/
theorem aggregate_row_tracks_table_witness :
    ∃ u, [(exRecA, 1), (exRecB, 2)].foldl (fun s p => insert_message p.1 p.2 s)
          (init_db 0 freshStore)
      = { streamed_messages := some [exRecA, exRecB],
          sentiment_insights := some [⟨1, some ((3 : ℚ) / 2), 2, u⟩] } := by
  have h := aggregate_row_tracks_table [(exRecA, 1), (exRecB, 2)] 0 (by simp)
  obtain ⟨u, hu⟩ := h
  refine ⟨u, ?_⟩
  rw [hu]
  norm_num [exRecA, exRecB]

/-- C5: the offset starts at 0 (the value `main` passes) and is
monotonically non-decreasing: whatever the decode oracle, file
contents (present or not), sink states and clock, the offset after a
pass is at least the offset before it. -/
theorem offset_monotone (decode : List Char → Option RawRecord)
    (content? : Option (List Char)) (offset : ℕ) (store : Store)
    (csv : CsvFile) (now : ℕ) :
    main_start_offset = 0 ∧
    offset ≤ (consume_pass decode content? offset store csv now).offset := by
  refine ⟨rfl, ?_⟩
  cases content? with
  | none => simp [consume_pass]
  | some content =>
    rcases hp : processLines decode now (splitOnChar '\n' (content.drop offset))
        { store := store, csv := csv, sawData := false } with ⟨st, b⟩
    cases b with
    | false =>
      simp only [consume_pass, hp]
      exact le_max_left offset content.length
    | true => simp [consume_pass, hp]

/-- C1 counterexample: with the file holding a malformed line followed
by a well-formed one, the pass starting at offset 0 leaves the offset
at 0 (the file is 26 characters long, so the end-of-pass offset update
never happened) and inserts nothing into the message table (the
well-formed second line was never processed) — refuting the claim that
a decode failure never prevents later lines or the offset update. -/
theorem decode_failure_counterexample :
    (consume_pass exDecodeC1 (some exContentC1) 0 (init_db 0 freshStore) none 3).offset = 0 ∧
    0 < exContentC1.length ∧
    (consume_pass exDecodeC1 (some exContentC1) 0
        (init_db 0 freshStore) none 3).store.streamed_messages = some [] := by
  decide

/-- C1 (amended): a non-empty line whose decode raises is caught only
at the pass level: it aborts the pass, so the pass's offset update is
skipped exactly when some line of the pass fails to decode (lines
before the failing one are still processed, the failing line and all
later ones are not, and the pass falls into the sleep-and-retry
handler). -/
theorem decode_failure_aborts_pass (decode : List Char → Option RawRecord)
    (content : List Char) (offset : ℕ) (store : Store) (csv : CsvFile) (now : ℕ) :
    (consume_pass decode (some content) offset store csv now).offset
      = if (splitOnChar '\n' (content.drop offset)).any (lineBad decode) = true
        then offset else max offset content.length := by
  rcases hp : processLines decode now (splitOnChar '\n' (content.drop offset))
      { store := store, csv := csv, sawData := false } with ⟨st, b⟩
  have hb : b = (splitOnChar '\n' (content.drop offset)).any (lineBad decode) := by
    have h := processLines_aborts decode now (splitOnChar '\n' (content.drop offset))
      { store := store, csv := csv, sawData := false }
    rw [hp] at h
    exact h
  cases b with
  | false => simp [consume_pass, hp, ← hb]
  | true => simp [consume_pass, hp, ← hb]

/-- C6 counterexample: a pass over a file whose single line is
non-empty but malformed sees data (`new_data_found` is set before
`json.loads` raises) and nevertheless sleeps, refuting the claim that
a pass that saw a non-empty line never sleeps. -/
theorem idle_policy_counterexample :
    ¬ ((consume_pass exDecodeNone (some exContentC6) 0 freshStore none 5).sawData = true →
       (consume_pass exDecodeNone (some exContentC6) 0 freshStore none 5).slept = false) := by
  decide

/-- C6 (amended): a pass over an existing file sleeps exactly when it
either aborted on a malformed non-empty line or saw no non-empty line
at all; a pass whose file is missing always sleeps.  In particular the
no-sleep rule for passes that saw data holds only for passes without a
decode failure. -/
theorem idle_policy (decode : List Char → Option RawRecord) (content : List Char)
    (offset : ℕ) (store : Store) (csv : CsvFile) (now : ℕ) :
    ((consume_pass decode (some content) offset store csv now).slept
      = ((splitOnChar '\n' (content.drop offset)).any (lineBad decode)
         || !(splitOnChar '\n' (content.drop offset)).any lineIsData)) ∧
    (consume_pass decode none offset store csv now).slept = true := by
  refine ⟨?_, rfl⟩
  rcases hp : processLines decode now (splitOnChar '\n' (content.drop offset))
      { store := store, csv := csv, sawData := false } with ⟨st, b⟩
  have hb : b = (splitOnChar '\n' (content.drop offset)).any (lineBad decode) := by
    have h := processLines_aborts decode now (splitOnChar '\n' (content.drop offset))
      { store := store, csv := csv, sawData := false }
    rw [hp] at h
    exact h
  have hs : st.sawData = (splitOnChar '\n' (content.drop offset)).any lineIsData := by
    have h := processLines_sawData decode now (splitOnChar '\n' (content.drop offset))
      { store := store, csv := csv, sawData := false }
    rw [hp] at h
    exact h
  cases b with
  | false => simp [consume_pass, hp, ← hb, hs]
  | true => simp [consume_pass, hp, ← hb]
